import Mathlib

/-!
Shallow embedding of the JSON lexer and recursive-descent parser in
src/json_parser.py, together with theorems settling the specification
claims about it.

Modelling conventions:
* A Python str is a sequence of Unicode code points.  Source text and
  lexemes are `List Char`; the output of the unicode-escape decoder is a
  `List Nat` of code points, because Python strings may carry lone
  surrogates (0xD800 to 0xDFFF) which Lean `Char` excludes.
* Python exceptions are an explicit error type `PyErr`.  The tokenizer
  is a lazy generator in the source; here it is the position-indexed
  function `nextTok`, pulled on demand by the parser, which reproduces
  the interleaving of lexical and structural errors.
* Recursive functions that walk the token stream take an explicit fuel
  argument so that they are structurally recursive and reduce by `rfl`.
  `parse` supplies fuel `4 * length + 4`, which dominates the recursion
  (at most three frames are opened per consumed token); no theorem
  below depends on behaviour at insufficient fuel.
-/

namespace JsonRedcell

/-- A Python string as a list of Unicode code points. -/
abbrev PyStr := List Nat

/-- Python values produced by the parser: decoded strings, ints, floats,
booleans, None, lists and insertion-ordered dicts.  A float is carried as
its source lexeme: no claim in this development inspects float arithmetic
or float formatting, only the int-versus-float classification. -/
inductive PyVal where
  | str (s : PyStr)
  | int (n : Int)
  | float (lexeme : String)
  | bool (b : Bool)
  | none
  | list (xs : List PyVal)
  | dict (entries : List (PyVal × PyVal))

/-- Exceptions escaping lex and parse: SyntaxError with its message, or
StopIteration from calling next on an exhausted token generator. -/
inductive PyErr where
  | syntaxError (msg : String)
  | stopIteration
deriving DecidableEq

/-- Token record (kind, value, absolute offset), as in the source class
Token, a tuple of the regex group name, the decoded value and m.start(). -/
structure Token where
  kind : String
  value : PyVal
  offset : Nat

/-- Code points of a Lean string literal, for writing PyStr constants. -/
def pystr (s : String) : PyStr := s.data.map Char.toNat

/-- A Python str value from a Lean string literal. -/
def sval (s : String) : PyVal := .str (pystr s)

/-- Render a PyStr back as a Lean string (used for error messages; the
token strings that reach this point are surrogate-free, where
Char.ofNat is exact). -/
def strOfCodes (s : PyStr) : String := String.mk (s.map Char.ofNat)

/-- Conversion applied when a value is interpolated into an f-string
message, modelling str(value).  Floats render as their lexeme, an
approximation documented on PyVal.float; container values never occur
as token values, so their rendering is never exercised. -/
def fstr : PyVal → String
  | .str s => strOfCodes s
  | .int n => toString n
  | .float lx => lx
  | .bool true => "True"
  | .bool false => "False"
  | .none => "None"
  | .list _ => "<list>"
  | .dict _ => "<dict>"

/-- Python equality between values as used by the parser.  Every
comparison site in the source compares a token value against a str
literal, so only same-constructor comparisons are ever exercised;
cross-type numeric equality of Python is not modelled. -/
def pyEq : PyVal → PyVal → Bool
  | .str a, .str b => a == b
  | .int a, .int b => a == b
  | .float a, .float b => a == b
  | .bool a, .bool b => a == b
  | .none, .none => true
  | _, _ => false

/-- Membership test key in obj on the association list modelling a dict. -/
def dictMem (obj : List (PyVal × PyVal)) (k : PyVal) : Bool :=
  obj.any (fun e => pyEq e.1 k)

/-- Dict assignment obj[k] = v: an existing key keeps its position and
gets the new value, a new key is appended (insertion order). -/
def dictSet : List (PyVal × PyVal) → PyVal → PyVal → List (PyVal × PyVal)
  | [], k, v => [(k, v)]
  | e :: rest, k, v => if pyEq e.1 k then (e.1, v) :: rest else e :: dictSet rest k v

/-- Characters matched by the regex class backslash-s on a Python str:
the ASCII whitespace and the Unicode whitespace code points. -/
def isPySpace (c : Char) : Bool :=
  let n := c.toNat
  (0x09 ≤ n && n ≤ 0x0D) || n == 0x20 || (0x1C ≤ n && n ≤ 0x1F) ||
  n == 0x85 || n == 0xA0 || n == 0x1680 || (0x2000 ≤ n && n ≤ 0x200A) ||
  n == 0x2028 || n == 0x2029 || n == 0x202F || n == 0x205F || n == 0x3000

/--
Interior-and-closing-quote scan of the STRING pattern
(any run of chars other than unescaped quote, backslash and raw
0x00 to 0x1F, or backslash followed by any char except newline,
then a closing quote).  Returns the consumed characters including the
closing quote, and the rest.  The greedy scan is exact for this
pattern: the starred group can only stop at a char that neither
alternative accepts, and a quote is only consumable as the second char
of an escape, so regex backtracking can never produce a different
overall match.
-/
def stringBody : List Char → Option (List Char × List Char)
  | [] => Option.none
  | c :: rest =>
    if c = '"' then Option.some (['"'], rest)
    else if c = '\\' then
      match rest with
      | [] => Option.none
      | c2 :: rest2 =>
        if c2 = '\n' then Option.none
        else match stringBody rest2 with
          | Option.none => Option.none
          | Option.some (b, r) => Option.some ('\\' :: c2 :: b, r)
    else if c.toNat ≤ 0x1F then Option.none
    else match stringBody rest with
      | Option.none => Option.none
      | Option.some (b, r) => Option.some (c :: b, r)

/-- The STRING lexical category: an opening quote then `stringBody`. -/
def matchString : List Char → Option (List Char × List Char)
  | '"' :: rest =>
    match stringBody rest with
    | Option.none => Option.none
    | Option.some (b, r) => Option.some ('"' :: b, r)
  | _ => Option.none

/-- Decimal digit test for the NUMBER pattern. -/
def isDig (c : Char) : Bool := '0' ≤ c && c ≤ '9'

/-- Optional fractional part: a dot plus one or more digits, or nothing
(a dot not followed by a digit is left unconsumed, as the optional
regex group simply fails to participate). -/
def numFrac (cs : List Char) : List Char × List Char :=
  match cs with
  | '.' :: r2 =>
    match r2 with
    | d :: _ =>
      if isDig d then ('.' :: r2.takeWhile isDig, r2.dropWhile isDig)
      else ([], cs)
    | [] => ([], cs)
  | _ => ([], cs)

/-- Optional exponent part: e or E, an optional sign, then one or more
digits; if no digit follows, the whole group is skipped. -/
def numExp (cs : List Char) : List Char × List Char :=
  match cs with
  | e :: r2 =>
    if e = 'e' || e = 'E' then
      match r2 with
      | s :: r3 =>
        if s = '+' || s = '-' then
          match r3 with
          | d :: _ =>
            if isDig d then (e :: s :: r3.takeWhile isDig, r3.dropWhile isDig)
            else ([], cs)
          | [] => ([], cs)
        else if isDig s then (e :: r2.takeWhile isDig, r2.dropWhile isDig)
        else ([], cs)
      | [] => ([], cs)
    else ([], cs)
  | [] => ([], cs)

/--
The NUMBER lexical category: optional minus, then a single 0 or a
nonzero digit followed by digits, then the optional fraction and
exponent.  Greedy matching is exact here (the optional groups start
with a dot or an exponent letter, which the digit runs never give
back usefully), so the single deterministic pass mirrors the regex.
-/
def matchNumber (cs : List Char) : Option (List Char × List Char) :=
  let (minusPart, cs1) :=
    match cs with
    | '-' :: r => (['-'], r)
    | _ => (([] : List Char), cs)
  match cs1 with
  | [] => Option.none
  | c :: r =>
    if c = '0' then
      let (f, r2) := numFrac r
      let (e, r3) := numExp r2
      Option.some (minusPart ++ ['0'] ++ f ++ e, r3)
    else if '1' ≤ c && c ≤ '9' then
      let ds := r.takeWhile isDig
      let r1 := r.dropWhile isDig
      let (f, r2) := numFrac r1
      let (e, r3) := numExp r2
      Option.some (minusPart ++ (c :: ds) ++ f ++ e, r3)
    else Option.none

/-- The LITERAL lexical category: exactly true, false or null. -/
def matchLiteral : List Char → Option (List Char × List Char)
  | 't' :: 'r' :: 'u' :: 'e' :: r => Option.some (['t', 'r', 'u', 'e'], r)
  | 'f' :: 'a' :: 'l' :: 's' :: 'e' :: r => Option.some (['f', 'a', 'l', 's', 'e'], r)
  | 'n' :: 'u' :: 'l' :: 'l' :: r => Option.some (['n', 'u', 'l', 'l'], r)
  | _ => Option.none

/-- The WHITESPACE lexical category: one or more whitespace chars. -/
def matchWs (cs : List Char) : Option (List Char × List Char) :=
  match cs with
  | c :: _ =>
    if isPySpace c then Option.some (cs.takeWhile isPySpace, cs.dropWhile isPySpace)
    else Option.none
  | [] => Option.none

/--
One attempt of the compiled alternation at the current position, in the
group order of the source regex: STRING, NUMBER, LITERAL, BRACE,
BRACKET, COMMA, COLON, WHITESPACE.  Returns the group name, the lexeme
and the remaining text.
-/
def matchAt (cs : List Char) : Option (String × List Char × List Char) :=
  match matchString cs with
  | Option.some (lx, r) => Option.some ("STRING", lx, r)
  | Option.none =>
  match matchNumber cs with
  | Option.some (lx, r) => Option.some ("NUMBER", lx, r)
  | Option.none =>
  match matchLiteral cs with
  | Option.some (lx, r) => Option.some ("LITERAL", lx, r)
  | Option.none =>
  match cs with
  | [] => Option.none
  | c :: r =>
    if c = '\x7b' || c = '\x7d' then Option.some ("BRACE", [c], r)
    else if c = '[' || c = ']' then Option.some ("BRACKET", [c], r)
    else if c = ',' then Option.some ("COMMA", [c], r)
    else if c = ':' then Option.some ("COLON", [c], r)
    else
      match matchWs cs with
      | Option.some (lx, r2) => Option.some ("WHITESPACE", lx, r2)
      | Option.none => Option.none

/-- Hex digit test of the validator, c in 0123456789abcdefABCDEF. -/
def isHexChar (c : Char) : Bool :=
  ('0' ≤ c && c ≤ '9') || ('a' ≤ c && c ≤ 'f') || ('A' ≤ c && c ≤ 'F')

/-- Short-form escape test, esc in the eight JSON escape letters. -/
def isShortEsc (c : Char) : Bool :=
  c = '"' || c = '\\' || c = '/' || c = 'b' || c = 'f' || c = 'n' || c = 'r' || c = 't'

/-- Structural guard of the validator: the raw lexeme is shorter than two
characters, or does not begin with a quote, or does not end with one. -/
def structuralBad (raw : List Char) : Bool :=
  decide (raw.length < 2) || raw.head? != Option.some '"' || raw.getLast? != Option.some '"'

/--
Escape-syntax scan over the string interior, left to right with the
absolute index arithmetic of the source: a backslash must be followed
by a char; after backslash-u the next four chars must exist and be hex
(checking i + 6 at most n is checking that four chars follow the
escape introducer); a short-form escape advances two chars; anything
else is an invalid escape.  Returns the first error, if any.
-/
def escScan : List Char → Nat → Nat → Option PyErr
  | [], _, _ => Option.none
  | '\\' :: tail, i, ts =>
    (match tail with
    | [] =>
      Option.some (.syntaxError ("trailing backslash in string at offset " ++ toString (ts + 1 + i)))
    | esc :: t2 =>
      if esc = 'u' then
        match t2 with
        | a :: b :: c :: d :: rest =>
          if isHexChar a && isHexChar b && isHexChar c && isHexChar d then
            escScan rest (i + 6) ts
          else
            Option.some (.syntaxError ("invalid hex escape " ++ String.mk ['\\', 'u', a, b, c, d] ++
              " at offset " ++ toString (ts + 1 + i)))
        | _ =>
          Option.some (.syntaxError ("short unicode escape at offset " ++ toString (ts + 1 + i)))
      else if isShortEsc esc then escScan t2 (i + 2) ts
      else
        Option.some (.syntaxError ("invalid escape \\" ++ String.mk [esc] ++
          " at offset " ++ toString (ts + 1 + i))))
  | _ :: tail, i, ts => escScan tail (i + 1) ts

/-- UTF-8 bytes of one code point, for str.encode. -/
def utf8Char (c : Char) : List Nat :=
  let n := c.toNat
  if n < 0x80 then [n]
  else if n < 0x800 then [0xC0 + n / 0x40, 0x80 + n % 0x40]
  else if n < 0x10000 then
    [0xE0 + n / 0x1000, 0x80 + (n / 0x40) % 0x40, 0x80 + n % 0x40]
  else
    [0xF0 + n / 0x40000, 0x80 + (n / 0x1000) % 0x40, 0x80 + (n / 0x40) % 0x40, 0x80 + n % 0x40]

/-- UTF-8 encoding of the interior, modelling inner.encode. -/
def utf8Encode (s : List Char) : List Nat := (s.map utf8Char).flatten

/-- Value of one hex digit byte, if it is one. -/
def hexVal (b : Nat) : Option Nat :=
  if 0x30 ≤ b && b ≤ 0x39 then Option.some (b - 0x30)
  else if 0x61 ≤ b && b ≤ 0x66 then Option.some (b - 0x57)
  else if 0x41 ≤ b && b ≤ 0x46 then Option.some (b - 0x37)
  else Option.none

/-- Octal digit test on a byte. -/
def isOctByte (b : Nat) : Bool := 0x30 ≤ b && b ≤ 0x37

/--
The unicode-escape codec on bytes, modelling
bytes.decode with the unicode_escape codec: bytes outside escapes are
read as Latin-1 code points; recognised escapes are the Python
single-char escapes, octal and hex byte escapes, the four and eight
digit Unicode escapes, and a backslash before a newline (line
continuation, producing nothing); an unrecognised escape is kept
verbatim as backslash plus the char; a truncated escape or a lone
trailing backslash fails (None models UnicodeDecodeError).  The named
escape backslash-N is not modelled: the validator rejects it before
decoding ever runs.  Fuel makes the recursion structural; every step
consumes at least one byte, so the wrapper pyDecode, which supplies
length plus one, never exhausts it.
-/
def pyDecodeF : Nat → List Nat → Option (List Nat)
  | 0, _ => Option.none
  | _, [] => Option.some []
  | fuel + 1, 0x5C :: rest =>
    (match rest with
    | [] => Option.none
    | e :: r =>
      if e = 0x6E then (pyDecodeF fuel r).map (0x0A :: ·)          -- n
      else if e = 0x74 then (pyDecodeF fuel r).map (0x09 :: ·)     -- t
      else if e = 0x72 then (pyDecodeF fuel r).map (0x0D :: ·)     -- r
      else if e = 0x62 then (pyDecodeF fuel r).map (0x08 :: ·)     -- b
      else if e = 0x66 then (pyDecodeF fuel r).map (0x0C :: ·)     -- f
      else if e = 0x76 then (pyDecodeF fuel r).map (0x0B :: ·)     -- v
      else if e = 0x61 then (pyDecodeF fuel r).map (0x07 :: ·)     -- a
      else if e = 0x27 then (pyDecodeF fuel r).map (0x27 :: ·)     -- single quote
      else if e = 0x22 then (pyDecodeF fuel r).map (0x22 :: ·)     -- double quote
      else if e = 0x5C then (pyDecodeF fuel r).map (0x5C :: ·)     -- backslash
      else if e = 0x0A then pyDecodeF fuel r                       -- line continuation
      else if isOctByte e then
        (match r with
        | o2 :: o3 :: r3 =>
          if isOctByte o2 && isOctByte o3 then
            (pyDecodeF fuel r3).map (((e - 0x30) * 64 + (o2 - 0x30) * 8 + (o3 - 0x30)) :: ·)
          else if isOctByte o2 then
            (pyDecodeF fuel (o3 :: r3)).map (((e - 0x30) * 8 + (o2 - 0x30)) :: ·)
          else (pyDecodeF fuel (o2 :: o3 :: r3)).map ((e - 0x30) :: ·)
        | [o2] =>
          if isOctByte o2 then (pyDecodeF fuel []).map (((e - 0x30) * 8 + (o2 - 0x30)) :: ·)
          else (pyDecodeF fuel [o2]).map ((e - 0x30) :: ·)
        | [] => (pyDecodeF fuel []).map ((e - 0x30) :: ·))
      else if e = 0x78 then                                  -- x plus two hex digits
        (match r with
        | h1 :: h2 :: r2 =>
          match hexVal h1, hexVal h2 with
          | Option.some v1, Option.some v2 => (pyDecodeF fuel r2).map ((v1 * 16 + v2) :: ·)
          | _, _ => Option.none
        | _ => Option.none)
      else if e = 0x75 then                                  -- u plus four hex digits
        (match r with
        | h1 :: h2 :: h3 :: h4 :: r2 =>
          match hexVal h1, hexVal h2, hexVal h3, hexVal h4 with
          | Option.some v1, Option.some v2, Option.some v3, Option.some v4 =>
            (pyDecodeF fuel r2).map ((v1 * 4096 + v2 * 256 + v3 * 16 + v4) :: ·)
          | _, _, _, _ => Option.none
        | _ => Option.none)
      else if e = 0x55 then                                  -- U plus eight hex digits
        (match r with
        | h1 :: h2 :: h3 :: h4 :: h5 :: h6 :: h7 :: h8 :: r2 =>
          match hexVal h1, hexVal h2, hexVal h3, hexVal h4,
                hexVal h5, hexVal h6, hexVal h7, hexVal h8 with
          | Option.some v1, Option.some v2, Option.some v3, Option.some v4,
            Option.some v5, Option.some v6, Option.some v7, Option.some v8 =>
            let v := ((((((v1 * 16 + v2) * 16 + v3) * 16 + v4) * 16 + v5) * 16 + v6) * 16 + v7) * 16 + v8
            if v ≤ 0x10FFFF then (pyDecodeF fuel r2).map (v :: ·) else Option.none
          | _, _, _, _, _, _, _, _ => Option.none
        | _ => Option.none)
      else if e = 0x4E then Option.none                      -- N, not modelled (unreachable)
      else (pyDecodeF fuel r).map (fun d => 0x5C :: e :: d))       -- unknown escape kept verbatim
  | fuel + 1, b :: rest => (pyDecodeF fuel rest).map (b :: ·)

/-- The unicode-escape codec with sufficient fuel. -/
def pyDecode (bytes : List Nat) : Option (List Nat) :=
  pyDecodeF (bytes.length + 1) bytes

/-- Surrogate range test on a code point. -/
def isSurrogate (n : Nat) : Bool := 0xD800 ≤ n && n ≤ 0xDFFF

/--
The string validator and decoder, modelling the source function
validate underscore string: a structural check on the raw lexeme (with
the trailing-backslash and unterminated-string reports), the
escape-syntax scan over the interior, decoding through
encode-utf8-then-unicode-escape, and the scan of the decoded text for
surrogate-range code points.  The bad-escape-sequence branch models the
except arm around decoding; the exception text it interpolates is not
reproduced, and the branch is unreachable after a passing scan.
-/
def validate_string (raw : List Char) (token_start : Nat) : Except PyErr PyStr :=
  if structuralBad raw then
    if decide (raw.length > 0) && (raw.getLast? == Option.some '\\') then
      .error (.syntaxError ("trailing backslash in string at offset " ++
        toString (token_start + raw.length - 1)))
    else
      .error (.syntaxError ("unterminated string starting at offset " ++ toString token_start))
  else
    let inner := (raw.drop 1).dropLast
    match escScan inner 0 token_start with
    | Option.some e => .error e
    | Option.none =>
      match pyDecode (utf8Encode inner) with
      | Option.none => .error (.syntaxError "bad escape sequence: <UnicodeDecodeError>")
      | Option.some decoded =>
        if decoded.any isSurrogate then .error (.syntaxError "unpaired surrogate in string")
        else .ok decoded

/-- Digits of a lexeme to a natural number. -/
def digitsToNat (ds : List Char) : Nat := ds.foldl (fun a c => 10 * a + (c.toNat - 48)) 0

/-- Python int() of a matched NUMBER lexeme with no dot or exponent:
an optional minus sign then decimal digits, converted exactly. -/
def pyInt : List Char → Int
  | '-' :: ds => -(digitsToNat ds : Int)
  | ds => (digitsToNat ds : Int)

/-- Decoded value of a NUMBER token: a float when the lexeme contains a
dot, e or E, otherwise an exact int, as in the source conversion. -/
def numberValue (lexeme : List Char) : PyVal :=
  if lexeme.any (fun c => c == '.' || c == 'e' || c == 'E') then .float (String.mk lexeme)
  else .int (pyInt lexeme)

/-- Decoded value of a LITERAL token. -/
def literalValue (lexeme : List Char) : PyVal :=
  if lexeme = "true".data then .bool true
  else if lexeme = "false".data then .bool false
  else .none

/--
One pull on the lazy token generator: starting at the given remaining
text and absolute position, skip whitespace, classify the next lexeme
and decode its value; at a position where no lexical category matches,
fail with the invalid-character error at that position (in the source
this is either the coverage-gap check or the final end-of-scan check,
both reporting the same message at the same offset); at end of input,
return none (the generator is exhausted).  Fuel bounds the whitespace
skipping; the wrapper nextTok supplies length plus one, which always
suffices since every match consumes at least one character.
-/
def nextTokF : Nat → List Char → Nat → Except PyErr (Option (Token × List Char × Nat))
  | 0, _, _ => .error (.syntaxError "lexer fuel exhausted (unreachable)")
  | fuel + 1, text, pos =>
    match text with
    | [] => .ok Option.none
    | _ =>
      match matchAt text with
      | Option.none => .error (.syntaxError ("invalid character at offset " ++ toString pos))
      | Option.some (kind, lexeme, rest) =>
        if kind = "WHITESPACE" then nextTokF fuel rest (pos + lexeme.length)
        else if kind = "STRING" then
          match validate_string lexeme pos with
          | .error e => .error e
          | .ok s => .ok (Option.some (⟨"STRING", .str s, pos⟩, rest, pos + lexeme.length))
        else if kind = "NUMBER" then
          .ok (Option.some (⟨"NUMBER", numberValue lexeme, pos⟩, rest, pos + lexeme.length))
        else if kind = "LITERAL" then
          .ok (Option.some (⟨"LITERAL", literalValue lexeme, pos⟩, rest, pos + lexeme.length))
        else
          .ok (Option.some (⟨kind, .str (lexeme.map Char.toNat), pos⟩, rest, pos + lexeme.length))

/-- One pull on the generator with sufficient whitespace fuel. -/
def nextTok (text : List Char) (pos : Nat) : Except PyErr (Option (Token × List Char × Nat)) :=
  nextTokF (text.length + 1) text pos

/-- Drive the generator to completion, collecting the tokens. -/
def lexListF : Nat → List Char → Nat → Except PyErr (List Token)
  | 0, _, _ => .error (.syntaxError "lexer fuel exhausted (unreachable)")
  | fuel + 1, text, pos =>
    match nextTok text pos with
    | .error e => .error e
    | .ok Option.none => .ok []
    | .ok (Option.some (t, rest, p)) =>
      match lexListF fuel rest p with
      | .error e => .error e
      | .ok ts => .ok (t :: ts)

/-- The full token list of an input, modelling list(lex(text)). -/
def lexList (text : List Char) : Except PyErr (List Token) :=
  lexListF (text.length + 1) text 0

/-- Depth guard default of the source, DEPTH underscore LIMIT. -/
def DEPTH_LIMIT_DEFAULT : Int := 19

/-- State of the one-slot pushback iterator over the lazy token stream:
the remaining text, the absolute position of its first character, and
the buffer (the source buffer list never holds more than one token, so
an Option is a faithful rendering). -/
structure LAState where
  rest : List Char
  pos : Nat
  buf : Option Token

/-- Consume the next token: pop the buffer if full, otherwise pull the
generator; an exhausted generator raises StopIteration, a lexical or
string error propagates as the SyntaxError it is. -/
def laNext (s : LAState) : Except PyErr (Token × LAState) :=
  match s.buf with
  | Option.some t => .ok (t, ⟨s.rest, s.pos, Option.none⟩)
  | Option.none =>
    match nextTok s.rest s.pos with
    | .error e => .error e
    | .ok Option.none => .error .stopIteration
    | .ok (Option.some (t, rest, p)) => .ok (t, ⟨rest, p, Option.none⟩)

/-- Peek the next token without consuming it, caching one token; the
underlying pull can raise, and the exception propagates to the caller
of peek exactly as in the source. -/
def laPeek (s : LAState) : Except PyErr (Token × LAState) :=
  match s.buf with
  | Option.some t => .ok (t, s)
  | Option.none =>
    match nextTok s.rest s.pos with
    | .error e => .error e
    | .ok Option.none => .error .stopIteration
    | .ok (Option.some (t, rest, p)) => .ok (t, ⟨rest, p, Option.some t⟩)

/-- The expect helper: consume and verify the next token, catching
StopIteration as unexpected end of input and reporting expected versus
actual otherwise. -/
def expect (s : LAState) (expected_kind : String) (expected_value : Option PyVal) :
    Except PyErr (PyVal × LAState) :=
  match laNext s with
  | .error .stopIteration => .error (.syntaxError "unexpected end of input")
  | .error e => .error e
  | .ok (t, s1) =>
    let bad :=
      (t.kind != expected_kind) ||
        (match expected_value with
         | Option.some v => !(pyEq t.value v)
         | Option.none => false)
    if bad then
      let exp :=
        match expected_value with
        | Option.none => expected_kind
        | Option.some v => expected_kind ++ " \x27" ++ fstr v ++ "\x27"
      .error (.syntaxError ("unexpected token " ++ t.kind ++ " \x27" ++ fstr t.value ++
        "\x27 at offset " ++ toString t.offset ++ " - expected " ++ exp))
    else .ok (t.value, s1)

/-- Outcome of a parsing procedure: none is fuel exhaustion (never
reached at the fuel parse supplies), otherwise the Python outcome. -/
abbrev PRes := Option (Except PyErr (PyVal × LAState))

/-- Call tags for the mutually recursive parsing procedures, carrying
the current depth and the loop accumulators; a single structurally
recursive function over these tags models the mutual group and keeps
kernel reduction available. -/
inductive PCall where
  | value (depth : Nat)
  | array (depth : Nat)
  | arrayLoop (depth : Nat) (items : List PyVal)
  | object (depth : Nat)
  | objectLoop (depth : Nat) (obj : List (PyVal × PyVal))

/--
The recursive-descent core, one branch per source procedure.
value: enforce the depth limit, then dispatch on one consumed token;
atoms resolve to their decoded value, an open brace or bracket recurses
into the container parser at depth plus one, anything else is the
value-expected error.
array and object: an immediately peeked close token yields the empty
container, otherwise the loop runs on the post-peek state.
arrayLoop: parse a value at the current depth, then either consume the
peeked close bracket and finish, or require a comma and continue.
objectLoop: require a string key and a colon, apply the duplicate-key
policy before parsing the member value, store the value under the key,
then either consume the peeked close brace and finish, or require a
comma and continue.
-/
def parseRun : Nat → PCall → LAState → Int → Bool → PRes
  | 0, _, _, _, _ => Option.none
  | fuel + 1, .value depth, s, max_depth, allow_dup =>
    if (depth : Int) > max_depth then
      Option.some (.error (.syntaxError "depth limit exceeded"))
    else
      match laNext s with
      | .error .stopIteration => Option.some (.error (.syntaxError "unexpected end of input"))
      | .error e => Option.some (.error e)
      | .ok (t, s1) =>
        if t.kind == "STRING" || t.kind == "NUMBER" || t.kind == "LITERAL" then
          Option.some (.ok (t.value, s1))
        else if t.kind == "BRACE" && pyEq t.value (sval "\x7b") then
          parseRun fuel (.object (depth + 1)) s1 max_depth allow_dup
        else if t.kind == "BRACKET" && pyEq t.value (sval "[") then
          parseRun fuel (.array (depth + 1)) s1 max_depth allow_dup
        else
          Option.some (.error (.syntaxError ("unexpected token " ++ t.kind ++ " \x27" ++
            fstr t.value ++ "\x27 - value expected")))
  | fuel + 1, .array depth, s, max_depth, allow_dup =>
    (match laPeek s with
    | .error .stopIteration => Option.some (.error (.syntaxError "unexpected end of input"))
    | .error e => Option.some (.error e)
    | .ok (pk, s1) =>
      if pk.kind == "BRACKET" && pyEq pk.value (sval "]") then
        match laNext s1 with
        | .error e => Option.some (.error e)
        | .ok (_, s2) => Option.some (.ok (.list [], s2))
      else parseRun fuel (.arrayLoop depth []) s1 max_depth allow_dup)
  | fuel + 1, .arrayLoop depth items, s, max_depth, allow_dup =>
    (match parseRun fuel (.value depth) s max_depth allow_dup with
    | Option.none => Option.none
    | Option.some (.error e) => Option.some (.error e)
    | Option.some (.ok (v, s2)) =>
      let items1 := items ++ [v]
      match laPeek s2 with
      | .error .stopIteration => Option.some (.error (.syntaxError "unexpected end of input"))
      | .error e => Option.some (.error e)
      | .ok (pk, s3) =>
        if pk.kind == "BRACKET" && pyEq pk.value (sval "]") then
          match laNext s3 with
          | .error e => Option.some (.error e)
          | .ok (_, s4) => Option.some (.ok (.list items1, s4))
        else
          match expect s3 "COMMA" (Option.some (sval ",")) with
          | .error e => Option.some (.error e)
          | .ok (_, s4) => parseRun fuel (.arrayLoop depth items1) s4 max_depth allow_dup)
  | fuel + 1, .object depth, s, max_depth, allow_dup =>
    (match laPeek s with
    | .error .stopIteration => Option.some (.error (.syntaxError "unexpected end of input"))
    | .error e => Option.some (.error e)
    | .ok (pk, s1) =>
      if pk.kind == "BRACE" && pyEq pk.value (sval "\x7d") then
        match laNext s1 with
        | .error e => Option.some (.error e)
        | .ok (_, s2) => Option.some (.ok (.dict [], s2))
      else parseRun fuel (.objectLoop depth []) s1 max_depth allow_dup)
  | fuel + 1, .objectLoop depth obj, s, max_depth, allow_dup =>
    (match expect s "STRING" Option.none with
    | .error e => Option.some (.error e)
    | .ok (key, s1) =>
      match expect s1 "COLON" (Option.some (sval ":")) with
      | .error e => Option.some (.error e)
      | .ok (_, s2) =>
        if !allow_dup && dictMem obj key then
          Option.some (.error (.syntaxError "duplicate key"))
        else
          match parseRun fuel (.value depth) s2 max_depth allow_dup with
          | Option.none => Option.none
          | Option.some (.error e) => Option.some (.error e)
          | Option.some (.ok (v, s3)) =>
            let obj1 := dictSet obj key v
            match laPeek s3 with
            | .error .stopIteration => Option.some (.error (.syntaxError "unexpected end of input"))
            | .error e => Option.some (.error e)
            | .ok (pk, s4) =>
              if pk.kind == "BRACE" && pyEq pk.value (sval "\x7d") then
                match laNext s4 with
                | .error e => Option.some (.error e)
                | .ok (_, s5) => Option.some (.ok (.dict obj1, s5))
              else
                match expect s4 "COMMA" (Option.some (sval ",")) with
                | .error e => Option.some (.error e)
                | .ok (_, s5) => parseRun fuel (.objectLoop depth obj1) s5 max_depth allow_dup)

/-- The value parser of the source, as a view on parseRun. -/
def parse_value (fuel : Nat) (s : LAState) (depth : Nat) (max_depth : Int) (allow_dup : Bool) :
    PRes :=
  parseRun fuel (.value depth) s max_depth allow_dup

/-- The array parser of the source, as a view on parseRun. -/
def parse_array (fuel : Nat) (s : LAState) (depth : Nat) (max_depth : Int) (allow_dup : Bool) :
    PRes :=
  parseRun fuel (.array depth) s max_depth allow_dup

/-- The object parser of the source, as a view on parseRun. -/
def parse_object (fuel : Nat) (s : LAState) (depth : Nat) (max_depth : Int) (allow_dup : Bool) :
    PRes :=
  parseRun fuel (.object depth) s max_depth allow_dup


/--
The public entry point: build the cursor over the lazy token stream,
peek the first token (the peek is unguarded, so an exhausted stream
raises StopIteration here, and a lexical error propagates), apply the
root container check with the message built from the peeked token (the
source peeks a second time for the same buffered token), parse one
value at depth zero, and reject any remaining token as extra data.
-/
def parse (text : List Char) (max_depth : Int) (allow_dup : Bool) :
    Option (Except PyErr PyVal) :=
  let s0 : LAState := ⟨text, 0, Option.none⟩
  match laPeek s0 with
  | .error e => Option.some (.error e)
  | .ok (t, s1) =>
    if !(t.kind == "BRACE" || t.kind == "BRACKET") then
      Option.some (.error (.syntaxError ("payload must be object or array at root - got " ++
        t.kind ++ " \x27" ++ fstr t.value ++ "\x27 at offset " ++ toString t.offset)))
    else
      match parse_value (4 * text.length + 4) s1 0 max_depth allow_dup with
      | Option.none => Option.none
      | Option.some (.error e) => Option.some (.error e)
      | Option.some (.ok (result, s2)) =>
        match laNext s2 with
        | .error .stopIteration => Option.some (.ok result)
        | .error e => Option.some (.error e)
        | .ok (t2, _) =>
          Option.some (.error (.syntaxError ("extra data after root value at offset " ++
            toString t2.offset)))

/-- The nesting probe text: k open brackets followed by k close
brackets. -/
def nestText (k : Nat) : List Char :=
  List.replicate k '[' ++ List.replicate k ']'

/-- The value of the nesting probe: lists nested t plus one deep. -/
def nestedList : Nat → PyVal
  | 0 => .list []
  | t + 1 => .list [nestedList t]

/-! ## Helper lemmas -/

theorem matchAt_quote_none (body : List Char) (h : matchString ('"' :: body) = Option.none) :
    matchAt ('"' :: body) = Option.none := by
  simp [matchAt, h, matchNumber, matchLiteral, matchWs, isPySpace]

theorem nextTok_open (R : List Char) (pos : Nat) :
    nextTok ('[' :: R) pos = .ok (Option.some (⟨"BRACKET", .str [91], pos⟩, R, pos + 1)) := rfl

theorem nextTok_close (R : List Char) (pos : Nat) :
    nextTok (']' :: R) pos = .ok (Option.some (⟨"BRACKET", .str [93], pos⟩, R, pos + 1)) := rfl

theorem laPeek_cons_open (R : List Char) (pos : Nat) :
    laPeek ⟨'[' :: R, pos, Option.none⟩ =
      .ok (⟨"BRACKET", .str [91], pos⟩,
        ⟨R, pos + 1, Option.some ⟨"BRACKET", .str [91], pos⟩⟩) := rfl

theorem laPeek_cons_close (R : List Char) (pos : Nat) :
    laPeek ⟨']' :: R, pos, Option.none⟩ =
      .ok (⟨"BRACKET", .str [93], pos⟩,
        ⟨R, pos + 1, Option.some ⟨"BRACKET", .str [93], pos⟩⟩) := rfl

theorem laNext_buf (rest : List Char) (pos : Nat) (t : Token) :
    laNext ⟨rest, pos, Option.some t⟩ = .ok (t, ⟨rest, pos, Option.none⟩) := rfl

theorem laNext_nil (pos : Nat) : laNext ⟨[], pos, Option.none⟩ = .error .stopIteration := rfl

theorem stringBody_last :
    ∀ (l b r : List Char), stringBody l = Option.some (b, r) →
      b ≠ [] ∧ b.getLast? = Option.some '"' := by
  intro l
  induction l using stringBody.induct with
  | case1 =>
    intro b r h
    simp [stringBody] at h
  | case2 rest2 =>
    intro b r h
    rw [stringBody.eq_def] at h
    simp at h
    obtain ⟨h1, h2⟩ := h
    subst h1
    simp
  | case3 hne =>
    intro b r h
    rw [stringBody.eq_def] at h
    simp at h
  | case4 rest2 hne =>
    intro b r h
    rw [stringBody.eq_def] at h
    simp at h
  | case5 c2 rest2 hc2 hrec hne ih =>
    intro b r h
    rw [stringBody.eq_def] at h
    simp [hc2, hrec] at h
  | case6 c2 rest2 hc2 b0 r0 hrec hne ih =>
    intro b r h
    rw [stringBody.eq_def] at h
    simp [hc2, hrec] at h
    obtain ⟨h1, h2⟩ := h
    subst h1
    obtain ⟨hne0, hlast0⟩ := ih b0 r0 hrec
    refine ⟨by simp, ?_⟩
    cases b0 with
    | nil => exact absurd rfl hne0
    | cons x xs =>
      simpa [List.getLast?_cons_cons] using hlast0
  | case7 c2 rest2 hq hb hctl =>
    intro b r h
    rw [stringBody.eq_def] at h
    simp [hq, hb, hctl] at h
  | case8 c2 rest2 hq hb hctl hrec ih =>
    intro b r h
    rw [stringBody.eq_def] at h
    simp [hq, hb, hctl, hrec] at h
  | case9 c2 rest2 hq hb hctl b0 r0 hrec ih =>
    intro b r h
    rw [stringBody.eq_def] at h
    simp [hq, hb, hctl, hrec] at h
    obtain ⟨h1, h2⟩ := h
    subst h1
    obtain ⟨hne0, hlast0⟩ := ih b0 r0 hrec
    refine ⟨by simp, ?_⟩
    cases b0 with
    | nil => exact absurd rfl hne0
    | cons x xs =>
      simpa [List.getLast?_cons_cons] using hlast0

/-! ## Claim theorems -/

/-- C1 counterexample: the interior of the probe string passes
escape-syntax validation and consists of a valid UTF-16 surrogate pair
written as two adjacent unicode escapes, yet the validator reports the
unpaired-surrogate error instead of combining the halves. -/
theorem claim_C1_counterexample :
    validate_string "\"\\uD83D\\uDE00\"".data 0 =
      .error (.syntaxError "unpaired surrogate in string") := rfl

/-- C1 (corrected): decoding resolves each unicode escape to its own
code unit and never combines surrogate pairs, so a string containing a
surrogate-range escape is always rejected with Unpaired Surrogate even
when both halves of a valid pair are present; consequently no string
value the validator accepts contains any surrogate-range code point. -/
theorem claim_C1 :
    (validate_string "\"\\uD83D\\uDE00\"".data 0 =
      .error (.syntaxError "unpaired surrogate in string")) ∧
    (∀ (raw : List Char) (ts : Nat) (d : PyStr), validate_string raw ts = .ok d →
      ∀ c ∈ d, ¬(0xD800 ≤ c ∧ c ≤ 0xDFFF)) := by
  refine ⟨rfl, ?_⟩
  intro raw ts d h c hc
  simp only [validate_string] at h
  split at h
  · split at h <;> exact Except.noConfusion h
  · split at h
    · exact Except.noConfusion h
    · split at h
      · exact Except.noConfusion h
      · rename_i decoded heq
        split at h
        · exact Except.noConfusion h
        · rename_i hsurr
          injection h with h
          subst h
          simp only [List.any_eq_true, not_exists, not_and] at hsurr
          intro hrange
          have := hsurr c hc
          simp [isSurrogate] at this
          omega

/-- C1 witness: a plain one-character string is accepted and its code
point is outside the surrogate range. -/
theorem claim_C1_witness :
    (validate_string "\"a\"".data 0 = .ok [97]) ∧ ¬(0xD800 ≤ 97 ∧ 97 ≤ 0xDFFF) :=
  ⟨rfl, claim_C1.2 "\"a\"".data 0 [97] rfl 97 (by simp)⟩

/-- C3 counterexample: lexing 01 does not fail; it produces two NUMBER
tokens, the integer 0 at offset 0 and the integer 1 at offset 1,
because the second digit itself matches the NUMBER category so the
scan has no coverage gap. -/
theorem claim_C3_counterexample :
    lexList "01".data = .ok [⟨"NUMBER", .int 0, 0⟩, ⟨"NUMBER", .int 1, 1⟩] := rfl

/-- C3 (corrected): lexing 01 succeeds with the two integer NUMBER
tokens 0 at offset 0 and 1 at offset 1 and raises no Malformed
Character error; parsing 01 then fails, but with the root-container
error on the first NUMBER token, not with a lexical coverage failure. -/
theorem claim_C3 :
    lexList "01".data = .ok [⟨"NUMBER", .int 0, 0⟩, ⟨"NUMBER", .int 1, 1⟩] ∧
    parse "01".data DEPTH_LIMIT_DEFAULT false = Option.some (.error (.syntaxError
      "payload must be object or array at root - got NUMBER \x270\x27 at offset 0")) :=
  ⟨rfl, rfl⟩

/-- C4 counterexample: an input whose first token is the close bracket
or the close brace passes the root kind check (their kinds are BRACKET
and BRACE) and fails later with the value-expected error, not with
Root Must Be Container. -/
theorem claim_C4_counterexample :
    parse "]".data DEPTH_LIMIT_DEFAULT false = Option.some (.error (.syntaxError
      "unexpected token BRACKET \x27]\x27 - value expected")) ∧
    parse "\x7d".data DEPTH_LIMIT_DEFAULT false = Option.some (.error (.syntaxError
      "unexpected token BRACE \x27\x7d\x27 - value expected")) :=
  ⟨rfl, rfl⟩

/-- C4 (corrected): whenever the first token kind is neither BRACE nor
BRACKET, parse fails with the Root Must Be Container error reporting
that token kind, value and offset; inputs beginning with a close
bracket or close brace instead pass the root check and fail with the
value-expected error. -/
theorem claim_C4 :
    (∀ (text : List Char) (maxd : Int) (dup : Bool) (t : Token) (r : List Char) (p : Nat),
      nextTok text 0 = .ok (Option.some (t, r, p)) →
      t.kind ≠ "BRACE" → t.kind ≠ "BRACKET" →
      parse text maxd dup = Option.some (.error (.syntaxError
        ("payload must be object or array at root - got " ++ t.kind ++ " \x27" ++
          fstr t.value ++ "\x27 at offset " ++ toString t.offset)))) ∧
    parse "]".data DEPTH_LIMIT_DEFAULT false = Option.some (.error (.syntaxError
      "unexpected token BRACKET \x27]\x27 - value expected")) ∧
    parse "\x7d".data DEPTH_LIMIT_DEFAULT false = Option.some (.error (.syntaxError
      "unexpected token BRACE \x27\x7d\x27 - value expected")) := by
  refine ⟨?_, rfl, rfl⟩
  intro text maxd dup t r p h h1 h2
  have hb : (t.kind == "BRACE" || t.kind == "BRACKET") = false := by
    simp [h1, h2]
  simp [parse, laPeek, h, hb]

/-- C4 witness: the literal true is not a container and is rejected at
the root with its kind, rendered value and offset. -/
theorem claim_C4_witness :
    (nextTok "true".data 0 = .ok (Option.some (⟨"LITERAL", .bool true, 0⟩, [], 4))) ∧
    parse "true".data 19 false = Option.some (.error (.syntaxError
      "payload must be object or array at root - got LITERAL \x27True\x27 at offset 0")) :=
  ⟨rfl, claim_C4.1 "true".data 19 false ⟨"LITERAL", .bool true, 0⟩ [] 4 rfl
    (by decide) (by decide)⟩

/-- C5 counterexample: on the two-character input consisting of a
quote and a lone backslash, the string category never matches, so lex
fails with the invalid-character error at offset 0 (the opening
quote), not with Trailing Backslash at the offset of the backslash. -/
theorem claim_C5_counterexample :
    lexList "\"\\".data = .error (.syntaxError "invalid character at offset 0") := rfl

/-- C5 (corrected): an input starting with a double quote that the
STRING category cannot match (in particular one whose last character
before end of input is a lone backslash, so the closing quote never
appears) fails lexing with the invalid-character (Malformed Character)
error at the offset of the opening quote, because the string token is
never formed and the validator is never reached. -/
theorem claim_C5 :
    ∀ body : List Char, matchString ('"' :: body) = Option.none →
      lexList ('"' :: body) = .error (.syntaxError "invalid character at offset 0") := by
  intro body h
  have hAt : matchAt ('"' :: body) = Option.none := by
    simp [matchAt, h, matchNumber, matchLiteral, matchWs, isPySpace]
  simp [lexList, lexListF, nextTok, nextTokF, hAt]
  rfl

/-- C5 witness: the quote-backslash input instantiates the unmatched
string scenario and yields the invalid-character error at offset 0. -/
theorem claim_C5_witness :
    (matchString ('"' :: ['\\']) = Option.none) ∧
    lexList ('"' :: ['\\']) = .error (.syntaxError "invalid character at offset 0") :=
  ⟨rfl, claim_C5 ['\\'] rfl⟩

/-- C6 counterexample: the two-character escape backslash-slash decodes
to the two characters backslash and slash, not to the single slash,
because the unicode-escape codec passes unknown escapes through
verbatim; and a literal non-ASCII character is not decoded to itself
but to the Latin-1 reading of its UTF-8 bytes. -/
theorem claim_C6_counterexample :
    validate_string "\"\\/\"".data 0 = .ok [92, 47] ∧
    validate_string "\"é\"".data 0 = .ok [195, 169] :=
  ⟨rfl, rfl⟩

/-- C6 (corrected): seven of the eight short-form escapes decode to
their single literal character; the exception is backslash-slash,
which decodes to the two characters backslash and slash, and a literal
non-ASCII character decodes to the Latin-1 reading of its UTF-8 bytes
rather than to itself. -/
theorem claim_C6 :
    validate_string "\"\\\"\"".data 0 = .ok [34] ∧
    validate_string "\"\\\\\"".data 0 = .ok [92] ∧
    validate_string "\"\\b\"".data 0 = .ok [8] ∧
    validate_string "\"\\f\"".data 0 = .ok [12] ∧
    validate_string "\"\\n\"".data 0 = .ok [10] ∧
    validate_string "\"\\r\"".data 0 = .ok [13] ∧
    validate_string "\"\\t\"".data 0 = .ok [9] ∧
    validate_string "\"\\/\"".data 0 = .ok [92, 47] ∧
    validate_string "\"é\"".data 0 = .ok [195, 169] :=
  ⟨rfl, rfl, rfl, rfl, rfl, rfl, rfl, rfl, rfl⟩

/-- C7: on the empty input and on whitespace-only input the root peek
pulls an exhausted generator outside any guard, so parse surfaces
StopIteration, which is not a SyntaxError-class failure. -/
theorem claim_C7 :
    parse ([] : List Char) 19 false = Option.some (.error .stopIteration) ∧
    parse " ".data 19 false = Option.some (.error .stopIteration) :=
  ⟨rfl, rfl⟩

/-- C8: the object with the repeated key a fails with the duplicate-key
error under the default policy, and with duplicates allowed it parses
to the one-entry dict mapping a to 2, the last occurrence winning. -/
theorem claim_C8 :
    parse "\x7b\"a\":1,\"a\":2\x7d".data DEPTH_LIMIT_DEFAULT false =
      Option.some (.error (.syntaxError "duplicate key")) ∧
    parse "\x7b\"a\":1,\"a\":2\x7d".data DEPTH_LIMIT_DEFAULT true =
      Option.some (.ok (.dict [(.str (pystr "a"), .int 2)])) :=
  ⟨rfl, rfl⟩

/-- C9: a NUMBER match is converted to a token whose value is a float
exactly when the lexeme contains a dot, e or E, and the exact integer
of the lexeme otherwise; the five probe inputs each lex to a single
NUMBER token with that classification. -/
theorem claim_C9 :
    (∀ (fuel : Nat) (cs : List Char) (pos : Nat) (lx rest : List Char),
      matchAt cs = Option.some ("NUMBER", lx, rest) →
      nextTokF (fuel + 1) cs pos =
        .ok (Option.some (⟨"NUMBER", numberValue lx, pos⟩, rest, pos + lx.length)) ∧
      ((∃ s, numberValue lx = .float s) ↔ ('.' ∈ lx ∨ 'e' ∈ lx ∨ 'E' ∈ lx)) ∧
      (¬('.' ∈ lx ∨ 'e' ∈ lx ∨ 'E' ∈ lx) → numberValue lx = .int (pyInt lx))) ∧
    lexList "-0".data = .ok [⟨"NUMBER", .int 0, 0⟩] ∧
    lexList "0".data = .ok [⟨"NUMBER", .int 0, 0⟩] ∧
    lexList "0.5".data = .ok [⟨"NUMBER", .float "0.5", 0⟩] ∧
    lexList "1e10".data = .ok [⟨"NUMBER", .float "1e10", 0⟩] ∧
    lexList "-3.14e-2".data = .ok [⟨"NUMBER", .float "-3.14e-2", 0⟩] := by
  refine ⟨?_, rfl, rfl, rfl, rfl, rfl⟩
  intro fuel cs pos lx rest h
  have hmem : (lx.any (fun c => c == '.' || c == 'e' || c == 'E') = true) ↔
      ('.' ∈ lx ∨ 'e' ∈ lx ∨ 'E' ∈ lx) := by
    simp only [List.any_eq_true, Bool.or_eq_true, beq_iff_eq]
    constructor
    · rintro ⟨c, hcm, hc⟩
      rcases hc with (rfl | rfl) | rfl <;> tauto
    · rintro (hm | hm | hm) <;> exact ⟨_, hm, by simp⟩
  refine ⟨?_, ?_, ?_⟩
  · cases cs with
    | nil => simp [matchAt, matchString, matchNumber, matchLiteral] at h
    | cons c cs2 =>
      simp only [nextTokF, h]
      rfl
  · cases hb : lx.any (fun c => c == '.' || c == 'e' || c == 'E') with
    | false => simp [numberValue, hb, ← hmem]
    | true => simp [numberValue, hb, ← hmem]
  · intro hno
    have hb : lx.any (fun c => c == '.' || c == 'e' || c == 'E') = false := by
      rcases Bool.eq_false_or_eq_true (lx.any fun c => c == '.' || c == 'e' || c == 'E') with
        ht | hf
      · exact absurd (hmem.mp ht) hno
      · exact hf
    simp [numberValue, hb]

/-- C9 witness: the probe 1e10 instantiates the NUMBER match with a
lexeme containing e, hence a float token. -/
theorem claim_C9_witness :
    (matchAt "1e10".data = Option.some ("NUMBER", "1e10".data, [])) ∧
    nextTokF 1 "1e10".data 0 =
      .ok (Option.some (⟨"NUMBER", numberValue "1e10".data, 0⟩, [], 0 + "1e10".data.length)) ∧
    ((∃ s, numberValue "1e10".data = .float s) ↔
      ('.' ∈ "1e10".data ∨ 'e' ∈ "1e10".data ∨ 'E' ∈ "1e10".data)) :=
  ⟨rfl, (claim_C9.1 0 "1e10".data 0 "1e10".data [] rfl).1,
    (claim_C9.1 0 "1e10".data 0 "1e10".data [] rfl).2.1⟩

/-- C10: every lexeme the STRING category hands to the validator has
length at least two and begins and ends with a quote, so the
structural guard of the validator (the branch raising Unterminated
String and the boundary Trailing Backslash) is false on it; and at a
position where the text starts with a quote that the STRING category
cannot match, the tokenizer fails with the invalid-character error at
exactly that offset. -/
theorem claim_C10 :
    (∀ (cs lx rest : List Char), matchString cs = Option.some (lx, rest) →
      2 ≤ lx.length ∧ lx.head? = Option.some '"' ∧ lx.getLast? = Option.some '"' ∧
      structuralBad lx = false) ∧
    (∀ (body : List Char) (pos fuel : Nat), matchString ('"' :: body) = Option.none →
      nextTokF (fuel + 1) ('"' :: body) pos =
        .error (.syntaxError ("invalid character at offset " ++ toString pos))) := by
  constructor
  · intro cs lx rest h
    rw [matchString.eq_def] at h
    split at h
    · rename_i rest2
      split at h
      · exact Option.noConfusion h
      · rename_i b r heq
        injection h with h
        obtain ⟨h1, h2⟩ := Prod.mk.injEq .. ▸ h
        subst h1
        obtain ⟨hne, hlast⟩ := stringBody_last rest2 b r heq
        have hlast2 : ('"' :: b).getLast? = Option.some '"' := by
          cases b with
          | nil => exact absurd rfl hne
          | cons x xs => simpa [List.getLast?_cons_cons] using hlast
        have hlen : 2 ≤ ('"' :: b).length := by
          cases b with
          | nil => exact absurd rfl hne
          | cons x xs => simp [List.length_cons]
        have hdec : decide (('"' :: b).length < 2) = false := by
          simp only [decide_eq_false_iff_not, Nat.not_lt]
          exact hlen
        refine ⟨hlen, by simp, hlast2, ?_⟩
        simp [structuralBad, hdec, hlast2]
        exact List.length_pos.mpr hne
    · exact Option.noConfusion h
  · intro body pos fuel h
    have hAt := matchAt_quote_none body h
    simp [nextTokF, hAt]

/-- C10 witness: the two-character string lexeme of an empty string
satisfies the structural facts, and the unmatched quote-backslash text
produces the invalid-character error at offset 0. -/
theorem claim_C10_witness :
    (matchString "\"\"".data = Option.some ("\"\"".data, []) ∧
      structuralBad "\"\"".data = false) ∧
    (matchString ('"' :: ['\\']) = Option.none ∧
      nextTokF 1 ('"' :: ['\\']) 0 =
        .error (.syntaxError ("invalid character at offset " ++ toString 0))) :=
  ⟨⟨rfl, (claim_C10.1 "\"\"".data "\"\"".data [] rfl).2.2.2⟩,
    ⟨rfl, claim_C10.2 ['\\'] 0 0 rfl⟩⟩

theorem pyEq_open_close : pyEq (PyVal.str [91]) (sval "]") = false := rfl

theorem pyEq_close_close : pyEq (PyVal.str [93]) (sval "]") = true := rfl

theorem pyEq_open_open : pyEq (PyVal.str [91]) (sval "[") = true := rfl

theorem pyEq_open_brace : pyEq (PyVal.str [91]) (sval "\x7b") = false := rfl

theorem beq_bracket_string : ("BRACKET" == "STRING") = false := rfl

theorem beq_bracket_number : ("BRACKET" == "NUMBER") = false := rfl

theorem beq_bracket_literal : ("BRACKET" == "LITERAL") = false := rfl

theorem beq_bracket_brace : ("BRACKET" == "BRACE") = false := rfl

theorem beq_bracket_bracket : ("BRACKET" == "BRACKET") = true := rfl

theorem parseRun_value_not_deep (f : Nat) (s : LAState) (d : Nat) (maxd : Int) (dup : Bool)
    (hd : ¬((d : Int) > maxd)) :
    parseRun (f + 1) (.value d) s maxd dup =
      match laNext s with
      | .error .stopIteration => Option.some (.error (.syntaxError "unexpected end of input"))
      | .error e => Option.some (.error e)
      | .ok (t, s1) =>
        if t.kind == "STRING" || t.kind == "NUMBER" || t.kind == "LITERAL" then
          Option.some (.ok (t.value, s1))
        else if t.kind == "BRACE" && pyEq t.value (sval "\x7b") then
          parseRun f (.object (d + 1)) s1 maxd dup
        else if t.kind == "BRACKET" && pyEq t.value (sval "[") then
          parseRun f (.array (d + 1)) s1 maxd dup
        else
          Option.some (.error (.syntaxError ("unexpected token " ++ t.kind ++ " \x27" ++
            fstr t.value ++ "\x27 - value expected"))) := by
  show (if (d : Int) > maxd then
      Option.some (Except.error (PyErr.syntaxError "depth limit exceeded"))
    else
      match laNext s with
      | .error .stopIteration => Option.some (.error (.syntaxError "unexpected end of input"))
      | .error e => Option.some (.error e)
      | .ok (t, s1) =>
        if t.kind == "STRING" || t.kind == "NUMBER" || t.kind == "LITERAL" then
          Option.some (.ok (t.value, s1))
        else if t.kind == "BRACE" && pyEq t.value (sval "\x7b") then
          parseRun f (.object (d + 1)) s1 maxd dup
        else if t.kind == "BRACKET" && pyEq t.value (sval "[") then
          parseRun f (.array (d + 1)) s1 maxd dup
        else
          Option.some (.error (.syntaxError ("unexpected token " ++ t.kind ++ " \x27" ++
            fstr t.value ++ "\x27 - value expected")))) = _
  exact if_neg hd

theorem parseRun_nest_ok (maxd : Int) (dup : Bool) :
    ∀ (t c pos d fuel : Nat), t + 1 ≤ c → 3 * t + 1 ≤ fuel →
      (∀ i : Nat, i < t → (d : Int) + i ≤ maxd) →
      parseRun fuel (.array d)
          ⟨List.replicate t '[' ++ List.replicate c ']', pos, Option.none⟩ maxd dup =
        Option.some (.ok (nestedList t,
          ⟨List.replicate (c - (t + 1)) ']', pos + 2 * t + 1, Option.none⟩)) := by
  intro t
  induction t with
  | zero =>
    intro c pos d fuel hc hfuel hdepth
    obtain ⟨c2, rfl⟩ : ∃ c2, c = c2 + 1 := ⟨c - 1, by omega⟩
    obtain ⟨f, rfl⟩ : ∃ f, fuel = f + 1 := ⟨fuel - 1, by omega⟩
    rfl
  | succ t ih =>
    intro c pos d fuel hc hfuel hdepth
    obtain ⟨f, rfl⟩ : ∃ f, fuel = f + 3 := ⟨fuel - 3, by omega⟩
    have hd0 : ¬((d : Int) > maxd) := by
      have h0 := hdepth 0 (by omega)
      push_cast at h0
      omega
    have harr := ih c (pos + 1) (d + 1) f (by omega) (by omega)
      (fun i hi => by
        have := hdepth (i + 1) (by omega)
        push_cast at this ⊢
        omega)
    have hval : parseRun (f + 1) (.value d)
        ⟨List.replicate t '[' ++ List.replicate c ']', pos + 1,
          Option.some ⟨"BRACKET", .str [91], pos⟩⟩ maxd dup =
        Option.some (.ok (nestedList t,
          ⟨List.replicate (c - (t + 1)) ']', pos + 1 + 2 * t + 1, Option.none⟩)) := by
      rw [parseRun_value_not_deep f _ d maxd dup hd0]
      show parseRun f (.array (d + 1))
          ⟨List.replicate t '[' ++ List.replicate c ']', pos + 1, Option.none⟩ maxd dup = _
      exact harr
    obtain ⟨m, hm⟩ : ∃ m, c - (t + 1) = m + 1 := ⟨c - t - 2, by omega⟩
    have step1 : parseRun (f + 3) (.array d)
        ⟨List.replicate (t + 1) '[' ++ List.replicate c ']', pos, Option.none⟩ maxd dup =
        parseRun (f + 2) (.arrayLoop d [])
          ⟨List.replicate t '[' ++ List.replicate c ']', pos + 1,
            Option.some ⟨"BRACKET", .str [91], pos⟩⟩ maxd dup := rfl
    rw [step1]
    conv_lhs => rw [parseRun.eq_def]
    simp only [hval, hm, List.replicate_succ, laPeek_cons_close, laNext_buf,
      pyEq_close_close, beq_bracket_bracket, Bool.and_self, if_true]
    rw [show c - (t + 1 + 1) = m from by omega,
      show pos + 1 + 2 * t + 1 + 1 = pos + 2 * (t + 1) + 1 from by ring]
    rfl

theorem parseRun_nest_deep (maxd : Int) (dup : Bool) :
    ∀ (t c pos d fuel : Nat), 1 ≤ t → 3 * t ≤ fuel → ((d : Int) + t = maxd + 2) →
      parseRun fuel (.array d)
          ⟨List.replicate t '[' ++ List.replicate c ']', pos, Option.none⟩ maxd dup =
        Option.some (.error (.syntaxError "depth limit exceeded")) := by
  intro t
  induction t with
  | zero =>
    intro c pos d fuel h1 _ _
    exact absurd h1 (by omega)
  | succ t ih =>
    intro c pos d fuel h1 hfuel hdm
    obtain ⟨f, rfl⟩ : ∃ f, fuel = f + 3 := ⟨fuel - 3, by omega⟩
    have step1 : parseRun (f + 3) (.array d)
        ⟨List.replicate (t + 1) '[' ++ List.replicate c ']', pos, Option.none⟩ maxd dup =
        parseRun (f + 2) (.arrayLoop d [])
          ⟨List.replicate t '[' ++ List.replicate c ']', pos + 1,
            Option.some ⟨"BRACKET", .str [91], pos⟩⟩ maxd dup := rfl
    rw [step1]
    by_cases ht : t = 0
    · subst ht
      have hd : (d : Int) > maxd := by push_cast at hdm ⊢; omega
      conv_lhs => rw [parseRun.eq_def]
      simp only [parseRun, hd, if_true, if_pos]
    · have hd0 : ¬((d : Int) > maxd) := by push_cast at hdm ⊢; omega
      have harr := ih c (pos + 1) (d + 1) f (by omega) (by omega)
        (by push_cast at hdm ⊢; omega)
      have hval : parseRun (f + 1) (.value d)
          ⟨List.replicate t '[' ++ List.replicate c ']', pos + 1,
            Option.some ⟨"BRACKET", .str [91], pos⟩⟩ maxd dup =
          Option.some (.error (.syntaxError "depth limit exceeded")) := by
        rw [parseRun_value_not_deep f _ d maxd dup hd0]
        show parseRun f (.array (d + 1))
            ⟨List.replicate t '[' ++ List.replicate c ']', pos + 1, Option.none⟩ maxd dup = _
        exact harr
      conv_lhs => rw [parseRun.eq_def]
      simp only [hval]

/-- C2 counterexample: with the configured maximum depth zero, a
nesting of exactly one level, which is maximum depth plus one, parses
successfully, where the claim says it must fail with Depth Exceeded. -/
theorem claim_C2_counterexample :
    parse (nestText 1) 0 false = Option.some (.ok (.list [])) := rfl

/-- C2 (corrected): for every configured max depth m at least zero, a
nesting of exactly m plus two levels fails with Depth Exceeded and a
nesting of exactly m plus one levels succeeds (the depth guard fires
one level later than the claim states, because the check happens
before consuming the token that opens the next container); the default
max depth is 19. -/
theorem claim_C2 :
    ∀ (m : Nat) (dup : Bool),
      parse (nestText (m + 1)) (m : Int) dup = Option.some (.ok (nestedList m)) ∧
      parse (nestText (m + 2)) (m : Int) dup =
        Option.some (.error (.syntaxError "depth limit exceeded")) ∧
      DEPTH_LIMIT_DEFAULT = 19 := by
  intro m dup
  have hd0 : ¬(((0 : Nat) : Int) > (m : Int)) := by push_cast; omega
  refine ⟨?_, ?_, rfl⟩
  · have htext : nestText (m + 1) =
        '[' :: (List.replicate m '[' ++ List.replicate (m + 1) ']') := by
      simp [nestText, List.replicate_succ]
    have hlen : ('[' :: (List.replicate m '[' ++ List.replicate (m + 1) ']')).length =
        2 * m + 2 := by
      simp [List.length_cons, List.length_append, List.length_replicate]
      omega
    have harr := parseRun_nest_ok (m : Int) dup m (m + 1) 1 1 (8 * m + 11)
      (by omega) (by omega) (fun i hi => by push_cast; omega)
    have hval : parseRun (8 * m + 11 + 1) (.value 0)
        ⟨List.replicate m '[' ++ List.replicate (m + 1) ']', 1,
          Option.some ⟨"BRACKET", .str [91], 0⟩⟩ (m : Int) dup =
        Option.some (.ok (nestedList m,
          ⟨List.replicate ((m + 1) - (m + 1)) ']', 1 + 2 * m + 1, Option.none⟩)) := by
      rw [parseRun_value_not_deep (8 * m + 11) _ 0 (m : Int) dup hd0]
      show parseRun (8 * m + 11) (.array 1)
          ⟨List.replicate m '[' ++ List.replicate (m + 1) ']', 1, Option.none⟩ (m : Int) dup = _
      exact harr
    rw [htext]
    simp only [parse, parse_value, laPeek_cons_open, hlen]
    rw [show 4 * (2 * m + 2) + 4 = 8 * m + 11 + 1 from by ring]
    simp only [hval, show (m + 1) - (m + 1) = 0 from by omega, List.replicate_zero,
      laNext_nil]
    rfl
  · have htext : nestText (m + 2) =
        '[' :: (List.replicate (m + 1) '[' ++ List.replicate (m + 2) ']') := by
      simp [nestText, List.replicate_succ]
    have hlen : ('[' :: (List.replicate (m + 1) '[' ++ List.replicate (m + 2) ']')).length =
        2 * m + 4 := by
      simp [List.length_cons, List.length_append, List.length_replicate]
      omega
    have harr := parseRun_nest_deep (m : Int) dup (m + 1) (m + 2) 1 1 (8 * m + 19)
      (by omega) (by omega) (by push_cast; omega)
    have hval : parseRun (8 * m + 19 + 1) (.value 0)
        ⟨List.replicate (m + 1) '[' ++ List.replicate (m + 2) ']', 1,
          Option.some ⟨"BRACKET", .str [91], 0⟩⟩ (m : Int) dup =
        Option.some (.error (.syntaxError "depth limit exceeded")) := by
      rw [parseRun_value_not_deep (8 * m + 19) _ 0 (m : Int) dup hd0]
      show parseRun (8 * m + 19) (.array 1)
          ⟨List.replicate (m + 1) '[' ++ List.replicate (m + 2) ']', 1, Option.none⟩
          (m : Int) dup = _
      exact harr
    rw [htext]
    simp only [parse, parse_value, laPeek_cons_open, hlen]
    rw [show 4 * (2 * m + 4) + 4 = 8 * m + 19 + 1 from by ring]
    simp only [hval]
    rfl

end JsonRedcell
